import Mathlib

/-!
AP_OpticalFlow frontend (libraries/AP_OpticalFlow/OpticalFlow.cpp)

A shallow embedding of the optical flow frontend: the constructor, `init`,
`update` and `setHIL`, over an explicit frontend record. External collaborators
(the millisecond clock, the board configuration, what a backend does when asked
to initialise or to refresh) are explicit inputs of the operations.

Conventions
* `uint32_t` values are naturals reduced modulo `2 ^ 32`.
* `float` fields are carried as their 32-bit IEEE-754 patterns; the frontend
  only copies them, it never computes with them.
-/

namespace AP_OpticalFlow

/-! ## Machine arithmetic and the clock -/

/-- Reading of `AP_HAL::millis()` when `t` milliseconds have passed since boot:
a `uint32_t`, hence the low 32 bits of `t`. -/
def millis (t : Nat) : Nat := t % 2 ^ 32

/-- Subtraction of two `uint32_t` values, as the machine performs it: the
minuend plus the two-complement of the subtrahend, truncated to 32 bits. -/
def sub32 (a b : Nat) : Nat := (a % 2 ^ 32 + (2 ^ 32 - b % 2 ^ 32)) % 2 ^ 32

/-! ## Board configuration -/

/-- The board configuration seen by the preprocessor in `init`: the two
configured values `CONFIG_HAL_BOARD`, `CONFIG_HAL_BOARD_SUBTYPE` and the
`HAL_BOARD_*` identifiers they are compared with. The identifiers come from
AP_HAL_Boards.h, which is not part of the sources, so they are left as
parameters of the configuration. -/
structure Platform where
  CONFIG_HAL_BOARD : Int
  CONFIG_HAL_BOARD_SUBTYPE : Int
  HAL_BOARD_PX4 : Int
  HAL_BOARD_VRBRAIN : Int
  HAL_BOARD_SITL : Int
  HAL_BOARD_LINUX : Int
  HAL_BOARD_SUBTYPE_LINUX_BEBOP : Int
  HAL_BOARD_SUBTYPE_LINUX_MINLURE : Int
  HAL_BOARD_SUBTYPE_LINUX_BBBMINI : Int
deriving DecidableEq, Repr

/-- The concrete backend classes instantiated by `init`. -/
inductive Backend where
  | AP_OpticalFlow_PX4
  | AP_OpticalFlow_HIL
  | AP_OpticalFlow_Onboard
  | AP_OpticalFlow_Linux
deriving DecidableEq, Repr

/-- The `#if / #elif` chain of `init` (lines 76 to 87): the backend class built
for a board configuration, or `none` when no branch applies. -/
def selectBackend (p : Platform) : Option Backend :=
  if p.CONFIG_HAL_BOARD = p.HAL_BOARD_PX4 ∨ p.CONFIG_HAL_BOARD = p.HAL_BOARD_VRBRAIN then
    some Backend.AP_OpticalFlow_PX4
  else if p.CONFIG_HAL_BOARD = p.HAL_BOARD_SITL then
    some Backend.AP_OpticalFlow_HIL
  else if p.CONFIG_HAL_BOARD_SUBTYPE = p.HAL_BOARD_SUBTYPE_LINUX_BEBOP ∨
      p.CONFIG_HAL_BOARD_SUBTYPE = p.HAL_BOARD_SUBTYPE_LINUX_MINLURE ∨
      p.CONFIG_HAL_BOARD_SUBTYPE = p.HAL_BOARD_SUBTYPE_LINUX_BBBMINI then
    some Backend.AP_OpticalFlow_Onboard
  else if p.CONFIG_HAL_BOARD = p.HAL_BOARD_LINUX then
    some Backend.AP_OpticalFlow_Linux
  else
    none

/-! ## Frontend record -/

/-- A two-component `float` vector, each component as its 32-bit pattern. -/
structure Vector2f where
  x : Nat
  y : Nat
deriving DecidableEq, Repr

/-- Modelled from the spec: `struct OpticalFlow_state` is declared in
OpticalFlow.h, which is not part of the sources. The fields are those the
specification lists under FlowState. -/
structure OpticalFlow_state where
  rawFlowRate : Vector2f
  bodyRateCompensatedFlowRate : Vector2f
  rawGyroRate : Vector2f
  qualityMetric : Nat
  surfaceDistance : Nat
deriving DecidableEq, Repr

/-- The record left by `memset(&_state, 0, sizeof(_state))`. -/
def OpticalFlow_state.zero : OpticalFlow_state :=
  { rawFlowRate := ⟨0, 0⟩, bodyRateCompensatedFlowRate := ⟨0, 0⟩, rawGyroRate := ⟨0, 0⟩,
    qualityMetric := 0, surfaceDistance := 0 }

/-- The members of the frontend object that `init`, `update` and `setHIL` read
or write. `backend` is the owned backend pointer (`none` for `nullptr`),
`_enabled` the `_ENABLE` parameter, `healthy` the bit `_flags.healthy`. -/
structure OpticalFlow where
  backend : Option Backend
  _enabled : Int
  _state : OpticalFlow_state
  _last_update_ms : Nat
  healthy : Bool
deriving DecidableEq, Repr

/-- The constructor (lines 61 to 71): timestamp 0, parameter defaults from
`var_info` (`_ENABLE` defaults to 0), zeroed state, health flag false. The
constructor does not assign `backend`; the member starts as the null pointer
(no backend is owned before the first `init`). -/
def construct : OpticalFlow :=
  { backend := none
    _enabled := 0
    _state := OpticalFlow_state.zero
    _last_update_ms := 0
    healthy := false }

/-- Modelled from the spec: `OpticalFlow_backend::_update_frontend` is defined
in OpticalFlow_backend.cpp, which is not part of the sources. It is the write
entry point: it overwrites the whole state record and stamps the time of the
last update with the clock, read at time `t`. -/
def _update_frontend (frontend : OpticalFlow) (state : OpticalFlow_state) (t : Nat) :
    OpticalFlow :=
  { frontend with _state := state, _last_update_ms := millis t }

/-- The method `init` (lines 73 to 95) under board configuration `p`.
`hwInitOk` is what the hardware initialisation of the backend reports; the call
`backend->init();` is a statement whose outcome the frontend does not use. -/
def init (p : Platform) (hwInitOk : Bool) (st : OpticalFlow) : OpticalFlow :=
  let st1 : OpticalFlow :=
    if st.backend.isNone then
      match selectBackend p with
      | some b => { st with backend := some b }
      | none => st
    else st
  match st1.backend with
  | some _ =>
    let _report := hwInitOk
    st1
  | none => { st1 with _enabled := 0 }

/-- The comparison of line 103 on two clock values. -/
def healthCheck (now last : Nat) : Bool := decide (sub32 now last < 500)

/-- The method `update` (lines 97 to 104). `refresh` is what the call
`backend->update()` does this cycle: nothing, or one write of a state record
through `_update_frontend` with the clock read at the given time. `now` is the
time at which `update` itself reads the clock. -/
def update (refresh : Option (OpticalFlow_state × Nat)) (now : Nat) (st : OpticalFlow) :
    OpticalFlow :=
  let st1 : OpticalFlow :=
    match st.backend with
    | some _ =>
      match refresh with
      | some (s, t) => _update_frontend st s t
      | none => st
    | none => st
  { st1 with healthy := healthCheck (millis now) st1._last_update_ms }

/-- The method `setHIL` (lines 106 to 111); `t` is the time at which the write
entry point reads the clock. -/
def setHIL (state : OpticalFlow_state) (t : Nat) (st : OpticalFlow) : OpticalFlow :=
  match st.backend with
  | some _ => _update_frontend st state t
  | none => st

/-- Modelled from the spec: the read accessors are declared in OpticalFlow.h,
which is not part of the sources. `currentState` is a pure read of the state
record. -/
def currentState (st : OpticalFlow) : OpticalFlow_state := st._state

/-- Modelled from the spec: the accessor `isHealthy` is declared in
OpticalFlow.h, which is not part of the sources. The specification has it stay
false on a frontend that owns no backend, although `update` recomputes the
flag `_flags.healthy` whether or not a backend is owned; the accessor therefore
reports the flag of a frontend that owns a backend, and false otherwise. -/
def isHealthy (st : OpticalFlow) : Bool := st.backend.isSome && st.healthy

/-- Modelled from the spec: `enabled` reads the `_ENABLE` parameter as a
boolean. -/
def enabled (st : OpticalFlow) : Bool := decide (st._enabled ≠ 0)

/-! ## Call sequences -/

/-- One call made on the frontend by its owner. -/
inductive Op where
  | init (hwInitOk : Bool)
  | update (refresh : Option (OpticalFlow_state × Nat)) (now : Nat)
  | setHIL (state : OpticalFlow_state) (t : Nat)
deriving DecidableEq, Repr

/-- Effect of one call. -/
def step (p : Platform) (st : OpticalFlow) : Op → OpticalFlow
  | Op.init ok => init p ok st
  | Op.update r now => update r now st
  | Op.setHIL s t => setHIL s t st

/-- Effect of a sequence of calls, first call first. -/
def run (p : Platform) (st : OpticalFlow) (ops : List Op) : OpticalFlow :=
  ops.foldl (step p) st

/-- A call that is no write into the frontend: an `update` whose refresh writes
nothing, or an `init`. -/
def Op.noWrite : Op → Bool
  | Op.init _ => true
  | Op.update none _ => true
  | Op.update (some _) _ => false
  | Op.setHIL _ _ => false

/-- Whether a call is a call of `init`. -/
def Op.isInit : Op → Bool
  | Op.init _ => true
  | Op.update _ _ => false
  | Op.setHIL _ _ => false

/-- The state record written by the latest writing refresh of a sequence of
`update` inputs, if any refresh wrote. -/
def lastWritten : List (Option (OpticalFlow_state × Nat) × Nat) → Option OpticalFlow_state
  | [] => none
  | (r, _) :: rest =>
    match lastWritten rest with
    | some s => some s
    | none => r.map Prod.fst

/-- A sequence of `update` calls, first call first. -/
def runUpdates (st : OpticalFlow) (us : List (Option (OpticalFlow_state × Nat) × Nat)) :
    OpticalFlow :=
  us.foldl (fun a u => update u.1 u.2 a) st

/-! ## Sample inputs -/

/-- A board configuration with the given board and subtype, for use as a
concrete input: the identifiers are given pairwise distinct sample numbers. -/
def board (b sub : Int) : Platform :=
  { CONFIG_HAL_BOARD := b
    CONFIG_HAL_BOARD_SUBTYPE := sub
    HAL_BOARD_PX4 := 5
    HAL_BOARD_VRBRAIN := 8
    HAL_BOARD_SITL := 3
    HAL_BOARD_LINUX := 7
    HAL_BOARD_SUBTYPE_LINUX_BEBOP := 1006
    HAL_BOARD_SUBTYPE_LINUX_MINLURE := 1010
    HAL_BOARD_SUBTYPE_LINUX_BBBMINI := 1005 }

/-- The simulator build. -/
def sitlBoard : Platform := board 3 (-1)

/-- A build for a board without optical flow backend (the empty board). -/
def emptyBoard : Platform := board 99 (-1)

/-- A sample: flow rate (0.1, -0.2) as `float` patterns, quality 200. -/
def sampleState : OpticalFlow_state :=
  { rawFlowRate := ⟨0x3DCCCCCD, 0xBE4CCCCD⟩
    bodyRateCompensatedFlowRate := ⟨0, 0⟩
    rawGyroRate := ⟨0, 0⟩
    qualityMetric := 200
    surfaceDistance := 0 }

/-! ## Arithmetic of the health test -/

theorem sub32_eq_emod (a b : Nat) :
    ((sub32 a b : Nat) : Int) = ((a : Int) - (b : Int)) % 2 ^ 32 := by
  unfold sub32
  norm_num
  omega

theorem sub32_of_le (a b : Nat) (hba : b ≤ a) (ha : a < 2 ^ 32) : sub32 a b = a - b := by
  unfold sub32
  norm_num at ha ⊢
  omega

theorem millis_lt (t : Nat) : millis t < 2 ^ 32 := by
  unfold millis
  exact Nat.mod_lt _ (by norm_num)

theorem millis_of_lt (t : Nat) (h : t < 2 ^ 32) : millis t = t := by
  unfold millis
  exact Nat.mod_eq_of_lt h

/-! ## Frame lemmas for the three methods -/

theorem update_no_backend (r : Option (OpticalFlow_state × Nat)) (now : Nat) (st : OpticalFlow)
    (h : st.backend = none) :
    update r now st = { st with healthy := healthCheck (millis now) st._last_update_ms } := by
  simp [update, h]

theorem update_none (now : Nat) (st : OpticalFlow) :
    update none now st = { st with healthy := healthCheck (millis now) st._last_update_ms } := by
  obtain ⟨b, e, s, l, h⟩ := st
  cases b <;> rfl

theorem update_write (s : OpticalFlow_state) (t now : Nat) (st : OpticalFlow) (b : Backend)
    (h : st.backend = some b) :
    update (some (s, t)) now st =
      { st with _state := s, _last_update_ms := millis t,
                healthy := healthCheck (millis now) (millis t) } := by
  simp [update, h, _update_frontend]

theorem update_backend (r : Option (OpticalFlow_state × Nat)) (now : Nat) (st : OpticalFlow) :
    (update r now st).backend = st.backend := by
  unfold update
  cases hb : st.backend <;> cases r <;> simp [_update_frontend, hb]

theorem setHIL_no_backend (s : OpticalFlow_state) (t : Nat) (st : OpticalFlow)
    (h : st.backend = none) : setHIL s t st = st := by
  simp [setHIL, h]

theorem setHIL_backend (s : OpticalFlow_state) (t : Nat) (st : OpticalFlow) :
    (setHIL s t st).backend = st.backend := by
  unfold setHIL
  cases hb : st.backend <;> simp [_update_frontend, hb]

theorem setHIL_write (s : OpticalFlow_state) (t : Nat) (st : OpticalFlow) (b : Backend)
    (h : st.backend = some b) :
    setHIL s t st = { st with _state := s, _last_update_ms := millis t } := by
  simp [setHIL, h, _update_frontend]

theorem init_of_backend (p : Platform) (ok : Bool) (st : OpticalFlow) (b : Backend)
    (h : st.backend = some b) : init p ok st = st := by
  simp [init, h]

theorem init_of_none (p : Platform) (ok : Bool) (st : OpticalFlow)
    (h : st.backend = none) (hp : selectBackend p = none) :
    init p ok st = { st with _enabled := 0 } := by
  simp [init, h, hp]

theorem init_of_select (p : Platform) (ok : Bool) (st : OpticalFlow) (b : Backend)
    (h : st.backend = none) (hp : selectBackend p = some b) :
    init p ok st = { st with backend := some b } := by
  simp [init, h, hp]

theorem step_backend_some (p : Platform) (st : OpticalFlow) (op : Op) (b : Backend)
    (h : st.backend = some b) : (step p st op).backend = some b := by
  cases op with
  | init ok => simp [step, init_of_backend p ok st b h, h]
  | update r now => simp [step, update_backend, h]
  | setHIL s t => simp [step, setHIL_backend, h]

theorem run_backend_some (p : Platform) (ops : List Op) (st : OpticalFlow) (b : Backend)
    (h : st.backend = some b) : (run p st ops).backend = some b := by
  induction ops generalizing st with
  | nil => simpa [run] using h
  | cons op rest ih =>
    have := ih (step p st op) (step_backend_some p st op b h)
    simpa [run] using this

theorem step_no_backend (p : Platform) (hp : selectBackend p = none) (st : OpticalFlow) (op : Op)
    (hb : st.backend = none) (he : st._enabled = 0) :
    (step p st op).backend = none ∧ (step p st op)._enabled = 0 ∧
      (step p st op)._state = st._state ∧
      (step p st op)._last_update_ms = st._last_update_ms := by
  cases op with
  | init ok => simp [step, init_of_none p ok st hb hp, hb]
  | update r now => simp [step, update_no_backend r now st hb, hb, he]
  | setHIL s t => simp [step, setHIL_no_backend s t st hb, hb, he]

theorem run_no_backend (p : Platform) (hp : selectBackend p = none) (ops : List Op)
    (st : OpticalFlow) (hb : st.backend = none) (he : st._enabled = 0) :
    (run p st ops).backend = none ∧ (run p st ops)._enabled = 0 ∧
      (run p st ops)._state = st._state ∧
      (run p st ops)._last_update_ms = st._last_update_ms := by
  induction ops generalizing st with
  | nil => simp [run, hb, he]
  | cons op rest ih =>
    obtain ⟨h1, h2, h3, h4⟩ := step_no_backend p hp st op hb he
    obtain ⟨k1, k2, k3, k4⟩ := ih (step p st op) h1 h2
    refine ⟨?_, ?_, ?_, ?_⟩
    · simpa [run] using k1
    · simpa [run] using k2
    · rw [← h3]; simpa [run] using k3
    · rw [← h4]; simpa [run] using k4

theorem step_noWrite (p : Platform) (st : OpticalFlow) (op : Op) (hw : op.noWrite = true) :
    (step p st op)._last_update_ms = st._last_update_ms ∧
      (step p st op)._state = st._state := by
  cases op with
  | init ok =>
    unfold step init
    cases hb : st.backend <;> cases hp : selectBackend p <;> simp [hb]
  | update r now =>
    cases r with
    | none => simp [step, update_none]
    | some w => simp [Op.noWrite] at hw
  | setHIL s t => simp [Op.noWrite] at hw

theorem run_noWrite (p : Platform) (ops : List Op) (st : OpticalFlow)
    (hw : ∀ op ∈ ops, op.noWrite = true) :
    (run p st ops)._last_update_ms = st._last_update_ms ∧
      (run p st ops)._state = st._state := by
  induction ops generalizing st with
  | nil => simp [run]
  | cons op rest ih =>
    obtain ⟨h1, h2⟩ := step_noWrite p st op (hw op (List.mem_cons_self _ _))
    obtain ⟨k1, k2⟩ := ih (step p st op) (fun o ho => hw o (List.mem_cons_of_mem _ ho))
    constructor
    · rw [← h1]; simpa [run] using k1
    · rw [← h2]; simpa [run] using k2

theorem run_no_init_backend (p : Platform) (ops : List Op) (st : OpticalFlow)
    (hn : ∀ op ∈ ops, op.isInit = false) : (run p st ops).backend = st.backend := by
  induction ops generalizing st with
  | nil => simp [run]
  | cons op rest ih =>
    have hstep : (step p st op).backend = st.backend := by
      have hop := hn op (List.mem_cons_self _ _)
      cases op with
      | init ok => simp [Op.isInit] at hop
      | update r now => simp [step, update_backend]
      | setHIL s t => simp [step, setHIL_backend]
    have := ih (step p st op) (fun o ho => hn o (List.mem_cons_of_mem _ ho))
    rw [← hstep]
    simpa [run] using this

theorem runUpdates_backend (us : List (Option (OpticalFlow_state × Nat) × Nat))
    (st : OpticalFlow) : (runUpdates st us).backend = st.backend := by
  induction us generalizing st with
  | nil => simp [runUpdates]
  | cons u rest ih =>
    have := ih (update u.1 u.2 st)
    rw [update_backend] at this
    simpa [runUpdates] using this

theorem runUpdates_state (us : List (Option (OpticalFlow_state × Nat) × Nat))
    (st : OpticalFlow) (b : Backend) (hb : st.backend = some b) :
    (runUpdates st us)._state = (lastWritten us).getD st._state := by
  induction us generalizing st with
  | nil => simp [runUpdates, lastWritten]
  | cons u rest ih =>
    obtain ⟨r, now⟩ := u
    have hb1 : (update r now st).backend = some b := by rw [update_backend]; exact hb
    have h := ih (update r now st) hb1
    have hrun : runUpdates st ((r, now) :: rest) = runUpdates (update r now st) rest := by
      simp [runUpdates]
    rw [hrun, h]
    cases hl : lastWritten rest with
    | some s => simp [lastWritten, hl]
    | none =>
      cases r with
      | none => simp [lastWritten, hl, update_none]
      | some w =>
        obtain ⟨s, t⟩ := w
        simp [lastWritten, hl, update_write s t now st b hb]

theorem isHealthy_of_backend (st : OpticalFlow) (b : Backend) (hb : st.backend = some b) :
    isHealthy st = st.healthy := by
  simp [isHealthy, hb]

theorem isHealthy_of_none (st : OpticalFlow) (hb : st.backend = none) :
    isHealthy st = false := by
  simp [isHealthy, hb]

/-! ## The claims -/

/-- C1: on a board configuration for which the selection chain yields no
backend class, `init` called on the constructed frontend (whatever value the
enable parameter was loaded with) leaves no backend and clears the enable
parameter; after any further sequence of `init`, `update` and `setHIL` calls
the backend is still absent, the frontend is still disabled and the state
record is still the zeroed record of the constructor. -/
theorem C1_no_variant_stays_disabled (p : Platform) (hp : selectBackend p = none)
    (e : Int) (ok : Bool) (ops : List Op) :
    (init p ok { construct with _enabled := e }).backend = none ∧
      enabled (init p ok { construct with _enabled := e }) = false ∧
      (run p (init p ok { construct with _enabled := e }) ops).backend = none ∧
      enabled (run p (init p ok { construct with _enabled := e }) ops) = false ∧
      currentState (run p (init p ok { construct with _enabled := e }) ops) =
        OpticalFlow_state.zero := by
  have h0 : init p ok { construct with _enabled := e } = construct := by
    rw [init_of_none p ok _ rfl hp]
    rfl
  rw [h0]
  obtain ⟨k1, k2, k3, _⟩ := run_no_backend p hp ops construct rfl rfl
  refine ⟨rfl, ?_, k1, ?_, ?_⟩
  · simp [enabled, construct]
  · simp [enabled, k2]
  · simpa [currentState] using k3

/-- Witness of C1 on the empty board, with the enable parameter loaded as 1 and
a call sequence that injects a sample, updates, initialises again and updates. -/
theorem C1_no_variant_stays_disabled_witness :
    selectBackend emptyBoard = none ∧
      enabled (run emptyBoard (init emptyBoard true { construct with _enabled := 1 })
        [Op.setHIL sampleState 10, Op.update (some (sampleState, 20)) 20, Op.init true,
          Op.update none 700]) = false ∧
      currentState (run emptyBoard (init emptyBoard true { construct with _enabled := 1 })
        [Op.setHIL sampleState 10, Op.update (some (sampleState, 20)) 20, Op.init true,
          Op.update none 700]) = OpticalFlow_state.zero :=
  ⟨by decide,
    (C1_no_variant_stays_disabled emptyBoard (by decide) 1 true _).2.2.2.1,
    (C1_no_variant_stays_disabled emptyBoard (by decide) 1 true _).2.2.2.2⟩

/-- C2, as stated, fails: on the constructed frontend, which owns no backend
and has the time of the last update at 0, `update` at clock reading 100 ms
leaves the time of the last update at 0, so the age test 100 - 0 < 500 holds
(in plain and in 32-bit arithmetic alike), while `isHealthy` is false. -/
theorem C2_counterexample :
    construct.backend = none ∧
      (update none 100 construct)._last_update_ms = 0 ∧
      decide ((((millis 100 : Nat) : Int) -
        ((update none 100 construct)._last_update_ms : Int)) % 2 ^ 32 < 500) = true ∧
      decide (100 - (update none 100 construct)._last_update_ms < 500) = true ∧
      isHealthy (update none 100 construct) = false := by
  decide

/-- C2, amended: after `update` returns, whatever the frontend state, the
refresh of the backend and the clock reading, the flag `_flags.healthy` equals
the test that the integer difference between the clock reading and the time of
the last update (as it stands after the refresh), taken modulo 2 ^ 32, is below
500 ms, whether or not a backend is owned. `isHealthy` equals that test when a
backend is owned and is false when none is owned. When the time of the last
update is not ahead of the clock the test is the plain difference. With a
backend owned and a write stamped at 100 ms, `update` at 200 ms gives healthy
and `update` at 650 ms with no further write gives not healthy; with a write
stamped 100 ms before the clock rolls over, `update` 50 ms after the rollover
gives healthy and `update` 500 ms after it gives not healthy. -/
theorem C2_update_recomputes_health (st : OpticalFlow)
    (r : Option (OpticalFlow_state × Nat)) (now : Nat) :
    (update r now st).healthy =
        decide ((((millis now : Nat) : Int) - ((update r now st)._last_update_ms : Int))
          % 2 ^ 32 < 500) ∧
      (∀ b : Backend, st.backend = some b →
        isHealthy (update r now st) =
          decide ((((millis now : Nat) : Int) - ((update r now st)._last_update_ms : Int))
            % 2 ^ 32 < 500)) ∧
      (st.backend = none → isHealthy (update r now st) = false) ∧
      ((update r now st)._last_update_ms ≤ now → now < 2 ^ 32 →
        (update r now st).healthy =
          decide (now - (update r now st)._last_update_ms < 500)) ∧
      (update (some (sampleState, 100)) 100 (init sitlBoard true construct))._last_update_ms
        = 100 ∧
      isHealthy (update none 200
        (update (some (sampleState, 100)) 100 (init sitlBoard true construct))) = true ∧
      isHealthy (update none 650 (update none 200
        (update (some (sampleState, 100)) 100 (init sitlBoard true construct)))) = false ∧
      isHealthy (update none (2 ^ 32 + 50)
        (update (some (sampleState, 2 ^ 32 - 100)) (2 ^ 32 - 100)
          (init sitlBoard true construct))) = true ∧
      isHealthy (update none (2 ^ 32 + 500)
        (update (some (sampleState, 2 ^ 32 - 100)) (2 ^ 32 - 100)
          (init sitlBoard true construct))) = false := by
  have harith : ∀ a c : Nat,
      healthCheck a c = decide ((((a : Int) - (c : Int)) % 2 ^ 32) < 500) := by
    intro a c
    unfold healthCheck sub32
    refine decide_eq_decide.mpr ?_
    norm_num
    omega
  have hflag : (update r now st).healthy =
      decide ((((millis now : Nat) : Int) - ((update r now st)._last_update_ms : Int))
        % 2 ^ 32 < 500) := by
    rw [← harith]
    rfl
  refine ⟨hflag, ?_, ?_, ?_, by decide, by decide, by decide, by decide, by decide⟩
  · intro b hb
    rw [← hflag]
    exact isHealthy_of_backend _ b (by rw [update_backend]; exact hb)
  · intro hb
    exact isHealthy_of_none _ (by rw [update_backend]; exact hb)
  · intro hle hlt
    show healthCheck (millis now) (update r now st)._last_update_ms = _
    rw [healthCheck, millis_of_lt now hlt, sub32_of_le _ _ hle hlt]

/-- Witness of C2 (amended): a frontend with the simulator backend, last
written at 100 ms, updated at 200 ms without a write. -/
theorem C2_update_recomputes_health_witness :
    isHealthy (update none 200
      (update (some (sampleState, 100)) 100 (init sitlBoard true construct))) =
      decide ((((millis 200 : Nat) : Int) - (100 : Int)) % 2 ^ 32 < 500) :=
  (C2_update_recomputes_health
    (update (some (sampleState, 100)) 100 (init sitlBoard true construct)) none 200).2.1
    Backend.AP_OpticalFlow_HIL (by decide)

/-- C3: `update` on a frontend that owns no backend (the constructed frontend
before any `init`, or the frontend after an `init` whose selection yields no
backend) is a total function, so it raises no error, and for every clock
reading and whatever refresh is offered it leaves the current state unchanged
and `isHealthy` false, as it was before the call. The absent backend, the
enable parameter and the time of the last update are unchanged too. -/
theorem C3_update_without_backend (st : OpticalFlow)
    (r : Option (OpticalFlow_state × Nat)) (now : Nat) (hb : st.backend = none) :
    currentState (update r now st) = currentState st ∧
      isHealthy st = false ∧
      isHealthy (update r now st) = false ∧
      (update r now st).backend = none ∧
      (update r now st)._enabled = st._enabled ∧
      (update r now st)._last_update_ms = st._last_update_ms ∧
      (st = construct → isHealthy (update r now construct) = false ∧
        currentState (update r now construct) = OpticalFlow_state.zero) ∧
      (∀ (p : Platform) (ok : Bool), selectBackend p = none → st = init p ok construct →
        isHealthy (update r now (init p ok construct)) = false ∧
        currentState (update r now (init p ok construct)) = OpticalFlow_state.zero) := by
  have hh : isHealthy (update r now st) = false := by
    simp [isHealthy, update_backend, hb]
  have h0 : isHealthy st = false := by
    simp [isHealthy, hb]
  have hs : currentState (update r now st) = currentState st := by
    rw [update_no_backend r now st hb]
    rfl
  refine ⟨hs, h0, hh, ?_, ?_, ?_, ?_, ?_⟩
  · rw [update_backend]; exact hb
  · rw [update_no_backend r now st hb]
  · rw [update_no_backend r now st hb]
  · intro hst
    subst hst
    exact ⟨hh, hs⟩
  · intro p ok hp hst
    subst hst
    refine ⟨hh, ?_⟩
    rw [hs, init_of_none p ok construct rfl hp]
    rfl

/-- Witness of C3: the constructed frontend, offered a refresh and updated at
100 ms, where the recomputed flag is true, and at 650 ms. -/
theorem C3_update_without_backend_witness :
    construct.backend = none ∧
      (update (some (sampleState, 100)) 100 construct).healthy = true ∧
      isHealthy (update (some (sampleState, 100)) 100 construct) = false ∧
      currentState (update (some (sampleState, 100)) 100 construct) = OpticalFlow_state.zero ∧
      isHealthy (update (some (sampleState, 650)) 650 construct) = false :=
  ⟨rfl, by decide,
    (C3_update_without_backend construct (some (sampleState, 100)) 100 rfl).2.2.1,
    (C3_update_without_backend construct (some (sampleState, 100)) 100 rfl).1,
    (C3_update_without_backend construct (some (sampleState, 650)) 650 rfl).2.2.1⟩

/-- C10: the health test of `update` is unsigned 32-bit arithmetic. For all
clock readings and times of last update the comparison of line 103 is the test
that their integer difference modulo 2 ^ 32 is below 500, and the flag left by
`update` is that comparison on the reading and the time of the last update.
Across a rollover (last update at 2 ^ 32 - 100, clock at 50) the flag is true,
and a time of last update ahead of the clock by more than 0 and at most
2 ^ 32 - 500 ms gives false. -/
theorem C10_health_is_uint32 (now last : Nat) :
    healthCheck now last = decide ((((now : Int) - (last : Int)) % 2 ^ 32) < 500) ∧
      (∀ (st : OpticalFlow) (r : Option (OpticalFlow_state × Nat)) (t : Nat),
        (update r t st).healthy =
          decide ((((millis t : Int) - ((update r t st)._last_update_ms : Int)) % 2 ^ 32)
            < 500)) ∧
      healthCheck 50 (2 ^ 32 - 100) = true ∧
      (∀ d : Nat, 0 < d → d ≤ 2 ^ 32 - 500 → now < 2 ^ 32 → last = (now + d) % 2 ^ 32 →
        healthCheck now last = false) := by
  have key : ∀ a b : Nat,
      healthCheck a b = decide ((((a : Int) - (b : Int)) % 2 ^ 32) < 500) := by
    intro a b
    unfold healthCheck
    rw [← sub32_eq_emod a b]
    simp
  refine ⟨key now last, ?_, by decide, ?_⟩
  · intro st r t
    rw [← key]
    rfl
  · intro d hd0 hd hnow hlast
    subst hlast
    unfold healthCheck sub32
    norm_num at hd hnow ⊢
    omega

/-- Witness of C10: the clock at 1000 ms and a time of last update 2000 ms
ahead of it. -/
theorem C10_health_is_uint32_witness : healthCheck 1000 3000 = false :=
  (C10_health_is_uint32 1000 3000).2.2.2 2000 (by decide) (by decide) (by decide) (by decide)

/-- C4, as stated, fails: on the constructed frontend, which owns no backend,
`setHIL` of the sample record leaves the zeroed record in place. -/
theorem C4_counterexample :
    construct.backend = none ∧
      currentState (setHIL sampleState 0 construct) = OpticalFlow_state.zero ∧
      currentState (setHIL sampleState 0 construct) ≠ sampleState := by
  decide

/-- C4, amended: for every frontend state that owns a backend and every state
record, `setHIL` followed by a read of the current state returns exactly that
record; for a frontend that owns no backend `setHIL` changes nothing and the
read returns the record held before. -/
theorem C4_setHIL_then_read (st : OpticalFlow) (s : OpticalFlow_state) (t : Nat) :
    (∀ b : Backend, st.backend = some b → currentState (setHIL s t st) = s) ∧
      (st.backend = none → setHIL s t st = st ∧
        currentState (setHIL s t st) = currentState st) := by
  constructor
  · intro b hb
    rw [setHIL_write s t st b hb]
    rfl
  · intro hb
    rw [setHIL_no_backend s t st hb]
    exact ⟨rfl, rfl⟩

/-- Witness of C4 (amended): the simulator build after `init`. -/
theorem C4_setHIL_then_read_witness :
    (init sitlBoard true construct).backend = some Backend.AP_OpticalFlow_HIL ∧
      currentState (setHIL sampleState 0 (init sitlBoard true construct)) = sampleState :=
  ⟨by decide,
    (C4_setHIL_then_read (init sitlBoard true construct) sampleState 0).1
      Backend.AP_OpticalFlow_HIL (by decide)⟩

/-- C5, as stated, fails: on the simulator build after `init` (time of last
update 0), `setHIL` at 1000 ms moves the time of the last update to 1000, and
the `update` at 1200 ms that follows reports healthy, where without the
injection it reports not healthy. -/
theorem C5_counterexample :
    (init sitlBoard true construct)._last_update_ms = 0 ∧
      (setHIL sampleState 1000 (init sitlBoard true construct))._last_update_ms = 1000 ∧
      isHealthy (update none 1200 (setHIL sampleState 1000 (init sitlBoard true construct)))
        = true ∧
      isHealthy (update none 1200 (init sitlBoard true construct)) = false := by
  decide

/-- C5, amended: for every frontend state and every state record, `setHIL`
leaves the health flag unchanged. When no backend is owned it also leaves the
time of the last update unchanged, so every later `update` computes the same
flag as without the injection. When a backend is owned the record goes through
the write entry point, which stamps the time of the last update with the clock,
and a later `update` with no write computes the flag from the injection time. -/
theorem C5_setHIL_health_frame (st : OpticalFlow) (s : OpticalFlow_state) (t : Nat) :
    isHealthy (setHIL s t st) = isHealthy st ∧
      (st.backend = none →
        (setHIL s t st)._last_update_ms = st._last_update_ms ∧
        ∀ (r : Option (OpticalFlow_state × Nat)) (now : Nat),
          isHealthy (update r now (setHIL s t st)) = isHealthy (update r now st)) ∧
      (∀ b : Backend, st.backend = some b →
        (setHIL s t st)._last_update_ms = millis t ∧
        ∀ now : Nat, isHealthy (update none now (setHIL s t st)) =
          decide (sub32 (millis now) (millis t) < 500)) := by
  refine ⟨?_, ?_, ?_⟩
  · obtain ⟨b, e, s0, l, h⟩ := st
    cases b <;> rfl
  · intro hb
    rw [setHIL_no_backend s t st hb]
    exact ⟨rfl, fun _ _ => rfl⟩
  · intro b hb
    rw [setHIL_write s t st b hb]
    refine ⟨rfl, ?_⟩
    intro now
    rw [update_none]
    simp [isHealthy, hb, healthCheck]

/-- Witness of C5 (amended): injection into the constructed frontend, which
owns no backend, and into the simulator build after `init`. -/
theorem C5_setHIL_health_frame_witness :
    (setHIL sampleState 1000 construct)._last_update_ms = construct._last_update_ms ∧
      (setHIL sampleState 1000 (init sitlBoard true construct))._last_update_ms
        = millis 1000 :=
  ⟨((C5_setHIL_health_frame construct sampleState 1000).2.1 rfl).1,
    ((C5_setHIL_health_frame (init sitlBoard true construct) sampleState 1000).2.2
      Backend.AP_OpticalFlow_HIL (by decide)).1⟩

/-- C7, as stated, fails: on the simulator build a backend is selected, and with
the enable parameter loaded as 1 and the hardware initialisation reporting
failure, the frontend is still enabled after `init`. -/
theorem C7_counterexample :
    selectBackend sitlBoard = some Backend.AP_OpticalFlow_HIL ∧
      (init sitlBoard false { construct with _enabled := 1 }).backend =
        some Backend.AP_OpticalFlow_HIL ∧
      enabled (init sitlBoard false { construct with _enabled := 1 }) = true := by
  decide

/-- C7, amended: `init` does not use what the hardware initialisation of the
backend reports: the resulting frontend is the same for a reported failure and
a reported success, and whenever a backend is owned after `init` the enable
parameter keeps the value it had before the call. Only when no backend is owned
after `init` is the frontend disabled. -/
theorem C7_init_ignores_report (p : Platform) (st : OpticalFlow) :
    init p false st = init p true st ∧
      (∀ (ok : Bool) (b : Backend), (init p ok st).backend = some b →
        (init p ok st)._enabled = st._enabled) ∧
      (∀ ok : Bool, (init p ok st).backend = none → enabled (init p ok st) = false) := by
  refine ⟨rfl, ?_, ?_⟩
  · intro ok b
    unfold init
    cases hb : st.backend <;> cases hp : selectBackend p <;> simp [hb]
  · intro ok
    unfold init
    cases hb : st.backend <;> cases hp : selectBackend p <;> simp [hb, enabled]

/-- Witness of C7 (amended): the simulator build with the enable parameter
loaded as 1 and a failing hardware initialisation. -/
theorem C7_init_ignores_report_witness :
    (init sitlBoard false { construct with _enabled := 1 })._enabled = 1 :=
  (C7_init_ignores_report sitlBoard { construct with _enabled := 1 }).2.1 false
    Backend.AP_OpticalFlow_HIL (by decide)

/-- C6, as stated, fails. On the simulator build, after a refresh has written a
sample stamped at 100 ms, an injection through `setHIL` at 400 ms followed by
an `update` at 650 ms with no refresh write leaves `isHealthy` true, although
550 ms have passed since the last successful backend update. Also, with no
call in between, the `update` made 2 ^ 32 + 50 ms after the stamp leaves
`isHealthy` true: the 32-bit clock shows only 50 ms. -/
theorem C6_counterexample :
    isHealthy (update none 650 (setHIL sampleState 400
        (update (some (sampleState, 100)) 100 (init sitlBoard true construct)))) = true ∧
      isHealthy (update none (100 + (2 ^ 32 + 50))
        (update (some (sampleState, 100)) 100 (init sitlBoard true construct))) = true := by
  decide

/-- C6, amended: on a frontend that owns a backend, an `update` whose refresh
writes a sample leaves `isHealthy` true when the clock is read at the instant
of the stamp, and more generally exactly when the time between the stamp and
the clock reading of that `update`, modulo 2 ^ 32, is below 500 ms. From then
on, after any further calls that write nothing through the write entry point
(an `update` whose refresh writes nothing, or an `init`; neither a writing
refresh nor a `setHIL`), the `update` made `d` ms after the stamp leaves
`isHealthy` false if and only if `d` modulo 2 ^ 32 is at least 500; for `d`
within the 32-bit range of the clock, if and only if `d` is at least 500. -/
theorem C6_health_after_update (p : Platform) (st : OpticalFlow) (b : Backend)
    (hb : st.backend = some b) (s : OpticalFlow_state) (tw now : Nat)
    (later : List Op) (hl : ∀ op ∈ later, op.noWrite = true) :
    isHealthy (update (some (s, tw)) tw st) = true ∧
      (∀ d : Nat, isHealthy (update (some (s, tw)) (tw + d) st) = true ↔ d % 2 ^ 32 < 500) ∧
      (∀ d : Nat,
        isHealthy (update none (tw + d) (run p (update (some (s, tw)) now st) later)) = false
          ↔ 500 ≤ d % 2 ^ 32) ∧
      (∀ d : Nat, d < 2 ^ 32 →
        (isHealthy (update none (tw + d) (run p (update (some (s, tw)) now st) later)) = false
          ↔ 500 ≤ d)) := by
  have harith : ∀ d : Nat,
      healthCheck (millis (tw + d)) (millis tw) = decide (d % 2 ^ 32 < 500) := by
    intro d
    unfold healthCheck sub32 millis
    refine decide_eq_decide.mpr ?_
    norm_num
    omega
  have hfirst : ∀ d : Nat,
      (isHealthy (update (some (s, tw)) (tw + d) st) = true ↔ d % 2 ^ 32 < 500) := by
    intro d
    rw [update_write s tw (tw + d) st b hb]
    simp [isHealthy, hb, harith]
  have hb1 : (update (some (s, tw)) now st).backend = some b := by
    rw [update_backend]; exact hb
  have hb2 : (run p (update (some (s, tw)) now st) later).backend = some b :=
    run_backend_some p later _ b hb1
  have hlast : (run p (update (some (s, tw)) now st) later)._last_update_ms = millis tw := by
    rw [(run_noWrite p later _ hl).1, update_write s tw now st b hb]
  have hflag : ∀ d : Nat,
      (isHealthy (update none (tw + d) (run p (update (some (s, tw)) now st) later)) = false ↔
        500 ≤ d % 2 ^ 32) := by
    intro d
    rw [update_none]
    simp [isHealthy, hb2, hlast, harith]
  refine ⟨?_, hfirst, hflag, ?_⟩
  · have := (hfirst 0).2 (by norm_num)
    simpa using this
  · intro d hd
    rw [hflag d, Nat.mod_eq_of_lt hd]

/-- Witness of C6 (amended): the simulator build, a write at 100 ms, then an
`update` without write at 200 ms and a repeated `init`, then the `update` made
550 ms after the stamp; and a write 100 ms before the clock rolls over, with
the `update` made 600 ms after the stamp. -/
theorem C6_health_after_update_witness :
    isHealthy (update (some (sampleState, 100)) 100 (init sitlBoard true construct)) = true ∧
      isHealthy (update none (100 + 550)
        (run sitlBoard (update (some (sampleState, 100)) 100 (init sitlBoard true construct))
          [Op.update none 200, Op.init false])) = false ∧
      isHealthy (update none (4294967196 + 600)
        (run sitlBoard
          (update (some (sampleState, 4294967196)) 4294967196 (init sitlBoard true construct))
          [Op.update none 4294967300])) = false :=
  ⟨(C6_health_after_update sitlBoard (init sitlBoard true construct)
      Backend.AP_OpticalFlow_HIL (by decide) sampleState 100 100
      [Op.update none 200, Op.init false] (by decide)).1,
    ((C6_health_after_update sitlBoard (init sitlBoard true construct)
      Backend.AP_OpticalFlow_HIL (by decide) sampleState 100 100
      [Op.update none 200, Op.init false] (by decide)).2.2.2 550 (by decide)).2 (by decide),
    ((C6_health_after_update sitlBoard (init sitlBoard true construct)
      Backend.AP_OpticalFlow_HIL (by decide) sampleState 4294967196 4294967196
      [Op.update none 4294967300] (by decide)).2.2.2 600 (by decide)).2 (by decide)⟩

/-- C8: on a frontend that owns a backend, after any sequence of `update` calls
the current state is exactly the record written by the most recent refresh that
wrote (the record held before the sequence if none wrote); an `update` whose
refresh writes a record leaves exactly that record, whatever was held before,
and an `update` whose refresh writes nothing leaves the current state
unchanged. -/
theorem C8_last_write_wins (st : OpticalFlow) (b : Backend) (hb : st.backend = some b)
    (us : List (Option (OpticalFlow_state × Nat) × Nat)) :
    currentState (runUpdates st us) = (lastWritten us).getD (currentState st) ∧
      (∀ (s : OpticalFlow_state) (t now : Nat),
        currentState (update (some (s, t)) now (runUpdates st us)) = s) ∧
      (∀ now : Nat,
        currentState (update none now (runUpdates st us)) = currentState (runUpdates st us)) := by
  have hb1 : (runUpdates st us).backend = some b := by rw [runUpdates_backend]; exact hb
  refine ⟨runUpdates_state us st b hb, ?_, ?_⟩
  · intro s t now
    rw [update_write s t now _ b hb1]
    rfl
  · intro now
    rw [update_none]
    rfl

/-- Witness of C8: the simulator build; a refresh writes the sample, the next
writes nothing, the next writes the zeroed record, the last writes nothing. -/
theorem C8_last_write_wins_witness :
    currentState (runUpdates (init sitlBoard true construct)
      [(some (sampleState, 100), 100), (none, 200), (some (OpticalFlow_state.zero, 300), 300),
        (none, 400)]) = OpticalFlow_state.zero ∧
      currentState (runUpdates (init sitlBoard true construct)
        [(some (OpticalFlow_state.zero, 100), 100), (some (sampleState, 200), 200),
          (none, 300)]) = sampleState :=
  ⟨(C8_last_write_wins (init sitlBoard true construct) Backend.AP_OpticalFlow_HIL
      (by decide) _).1,
    (C8_last_write_wins (init sitlBoard true construct) Backend.AP_OpticalFlow_HIL
      (by decide) _).1⟩

/-- C9: the frontend owns zero or one backend (the member is an optional
backend). The constructed frontend owns none, and a frontend that owns none
still owns none after any calls other than `init`. After the first `init` the
owned backend is the selection for the board configuration, whatever the
frontend state, the calls made before and the report of the hardware
initialisation, and it stays so after any further calls. Once a backend is
owned, no sequence of `init`, `update` and `setHIL` calls replaces or removes
it. -/
theorem C9_backend_fixed (p : Platform) (st0 : OpticalFlow) (h0 : st0.backend = none)
    (ops1 ops2 : List Op) (hno : ∀ op ∈ ops1, op.isInit = false) (ok : Bool) :
    construct.backend = none ∧
      (run p st0 ops1).backend = none ∧
      (init p ok (run p st0 ops1)).backend = selectBackend p ∧
      (run p (init p ok (run p st0 ops1)) ops2).backend = selectBackend p ∧
      (∀ (st : OpticalFlow) (b : Backend), st.backend = some b →
        ∀ ops : List Op, (run p st ops).backend = some b) := by
  have h1 : (run p st0 ops1).backend = none := by
    rw [run_no_init_backend p ops1 st0 hno]; exact h0
  refine ⟨rfl, h1, ?_, ?_, fun st b hb ops => run_backend_some p ops st b hb⟩
  · cases hp : selectBackend p with
    | none => rw [init_of_none p ok _ h1 hp]; exact h1
    | some b => rw [init_of_select p ok _ b h1 hp]
  · cases hp : selectBackend p with
    | none =>
      rw [init_of_none p ok _ h1 hp]
      exact (run_no_backend p hp ops2 { run p st0 ops1 with _enabled := 0 } h1 rfl).1
    | some b =>
      rw [init_of_select p ok _ b h1 hp]
      exact run_backend_some p ops2 _ b rfl

/-- Witness of C9: the simulator build; an injection and an `update` before the
first `init`, then a repeated `init`, an `update` and an injection. -/
theorem C9_backend_fixed_witness :
    (run sitlBoard construct [Op.setHIL sampleState 5, Op.update none 10]).backend = none ∧
      (run sitlBoard
        (init sitlBoard true
          (run sitlBoard construct [Op.setHIL sampleState 5, Op.update none 10]))
        [Op.init false, Op.update (some (sampleState, 20)) 20,
          Op.setHIL OpticalFlow_state.zero 30]).backend = some Backend.AP_OpticalFlow_HIL :=
  ⟨(C9_backend_fixed sitlBoard construct rfl [Op.setHIL sampleState 5, Op.update none 10]
      [Op.init false, Op.update (some (sampleState, 20)) 20,
        Op.setHIL OpticalFlow_state.zero 30] (by decide) true).2.1,
    (C9_backend_fixed sitlBoard construct rfl [Op.setHIL sampleState 5, Op.update none 10]
      [Op.init false, Op.update (some (sampleState, 20)) 20,
        Op.setHIL OpticalFlow_state.zero 30] (by decide) true).2.2.2.1⟩

end AP_OpticalFlow
